import Mathlib

/-!
Verification development for the Sysco scraping engine.

This file gives a shallow embedding of the core of the repository:

* `retry` / `shouldRetryError` from `src/utils/helpers.js`
* `upsertProduct` / `batchUpsertProducts` from `src/database/sysco-models.js`,
  together with the SQLite semantics induced by the schema in `createTable`
  (both the column constraint `sku TEXT UNIQUE` and the table constraint
  `UNIQUE(sku, location_zip)` are modelled, and the `ON CONFLICT(sku,
  location_zip) DO UPDATE` clause of the upsert statement)
* `extractProductDetails`, `scrapeProductsFromPage`, `navigateToNextPage`,
  `scrapeCategory` and `scrapeAllCategories` from the scraper module

The page-automation driver is opaque in the source (selectors are queried
against a live page), so page content is modelled as an explicit environment:
the list of hrefs matched by the product-link selector on each listing page,
the outcome of one fully retried product extraction per url, and the outcome
of each attempted pagination advance.  Timestamps (`CURRENT_TIMESTAMP`) are
modelled as an explicit `Nat` clock parameter.
-/

namespace Sysco

/-- Contiguous-occurrence test on character lists: true iff `pat` occurs as
a contiguous run inside the second argument. -/
def listIncludes (pat : List Char) : List Char → Bool
  | [] => pat.isEmpty
  | c :: rest => pat.isPrefixOf (c :: rest) || listIncludes pat rest

/-- Substring test with the semantics of the JavaScript `String.includes`:
`jsIncludes s pat` is true iff `pat` occurs contiguously inside `s`. -/
def jsIncludes (s pat : String) : Bool :=
  listIncludes pat.toList s.toList

/-- A JavaScript error value, reduced to the two fields the helpers consult. -/
structure JsError where
  name : String
  message : String
  deriving Repr, DecidableEq

/-- List of retryable error markers from `shouldRetryError`
(`src/utils/helpers.js`, lines 70-78). -/
def retryableErrors : List String :=
  ["TimeoutError", "ProtocolError", "NetworkError",
   "ECONNRESET", "ENOTFOUND", "ECONNREFUSED",
   "Failed to extract details"]

/-- Embedding of `shouldRetryError` (`src/utils/helpers.js`, lines 69-83):
an error is retryable iff one of the markers occurs in its name or message. -/
def shouldRetryError (e : JsError) : Bool :=
  retryableErrors.any fun errorType =>
    jsIncludes e.name errorType || jsIncludes e.message errorType

/-- Loop body of `retry` (`src/utils/helpers.js`, lines 32-59).  The
operation is indexed by the attempt number (starting at 1, as in the source).
`remaining` counts the attempts still allowed after the current one, so the
call from `retry` with `remaining = maxRetries` reproduces the source bound
`attempt <= maxRetries + 1`; `remaining = 0` corresponds to the break guard
`attempt >= maxRetries + 1`.  The second component of the result is the
number of invocations of the operation performed. -/
def retryAux {α : Type} (op : Nat → Except JsError α)
    (retryCondition : JsError → Bool) :
    Nat → Nat → Except JsError α × Nat
  | attempt, remaining =>
    match op attempt with
    | .ok v => (.ok v, 1)
    | .error e =>
      if !retryCondition e then
        (.error e, 1)
      else
        match remaining with
        | 0 => (.error e, 1)
        | r + 1 =>
          let rest := retryAux op retryCondition (attempt + 1) r
          (rest.1, rest.2 + 1)

/-- Embedding of `retry` (`src/utils/helpers.js`, lines 22-63) with the
`maxRetries` and `retryCondition` options explicit (backoff delays are pure
waiting and do not affect the value computed, so they are not modelled).
Returns the final result (the value of the first successful attempt, or the
last error re-thrown) together with the number of invocations made. -/
def retry {α : Type} (op : Nat → Except JsError α) (maxRetries : Nat)
    (retryCondition : JsError → Bool) : Except JsError α × Nat :=
  retryAux op retryCondition 1 maxRetries

/-- Input of `upsertProduct`: the fields destructured from `productData`
(`src/database/sysco-models.js`, lines 174-199).  A field that may be absent
from the JavaScript object (hence `undefined`, stored as SQL `NULL`) is an
`Option String`; `location_zip` carries the destructuring default `'97209'`
applied in `upsertProduct` when the field is absent. -/
structure ProductData where
  sku : String
  product_name : Option String
  brand_name : Option String
  packaging_information : Option String
  packaging_size : Option String
  picture_url : Option String
  description : Option String
  category : Option String
  product_url : Option String
  unit_size : Option String
  case_size : Option String
  weight : Option String
  upc : Option String
  gtin : Option String
  supplier : Option String
  manufacturer : Option String
  specifications : Option String
  nutrition_info : Option String
  ingredients : Option String
  allergens : Option String
  storage_instructions : Option String
  shelf_life : Option String
  location_zip : Option String
  structured_data : Option String
  deriving Repr, DecidableEq

/-- One row of the `sysco_products` table (`createTable`,
`src/database/sysco-models.js`, lines 82-123).  `product_name` is declared
`NOT NULL`; timestamp columns are modelled as `Nat` clock values. -/
structure Row where
  id : Nat
  sku : String
  product_name : String
  brand_name : Option String
  packaging_information : Option String
  packaging_size : Option String
  picture_url : Option String
  description : Option String
  category : Option String
  product_url : Option String
  unit_size : Option String
  case_size : Option String
  weight : Option String
  upc : Option String
  gtin : Option String
  supplier : Option String
  manufacturer : Option String
  specifications : Option String
  nutrition_info : Option String
  ingredients : Option String
  allergens : Option String
  storage_instructions : Option String
  shelf_life : Option String
  location_zip : String
  scraped_date : Nat
  updated_date : Nat
  scrape_session_id : Option String
  structured_data : Option String
  deriving Repr, DecidableEq

/-- The stored table: a list of rows, in insertion order. -/
abbrev Store := List Row

/-- Row produced by the INSERT arm of the upsert statement
(`src/database/sysco-models.js`, lines 202-207): both `scraped_date` and
`updated_date` take their schema default `CURRENT_TIMESTAMP`. -/
def newRow (p : ProductData) (pname zip : String) (sessionId : Option String)
    (now : Nat) (id : Nat) : Row :=
  { id := id
    sku := p.sku
    product_name := pname
    brand_name := p.brand_name
    packaging_information := p.packaging_information
    packaging_size := p.packaging_size
    picture_url := p.picture_url
    description := p.description
    category := p.category
    product_url := p.product_url
    unit_size := p.unit_size
    case_size := p.case_size
    weight := p.weight
    upc := p.upc
    gtin := p.gtin
    supplier := p.supplier
    manufacturer := p.manufacturer
    specifications := p.specifications
    nutrition_info := p.nutrition_info
    ingredients := p.ingredients
    allergens := p.allergens
    storage_instructions := p.storage_instructions
    shelf_life := p.shelf_life
    location_zip := zip
    scraped_date := now
    updated_date := now
    scrape_session_id := sessionId
    structured_data := p.structured_data }

/-- Row produced by the `DO UPDATE SET` arm of the upsert statement
(`src/database/sysco-models.js`, lines 208-232): every descriptive field is
overwritten from `excluded`, `updated_date` is set to `CURRENT_TIMESTAMP`,
and `scrape_session_id` is refreshed; `sku`, `location_zip`, `id` and
`scraped_date` are not in the SET list and keep their stored values. -/
def updateRow (r : Row) (p : ProductData) (pname : String)
    (sessionId : Option String) (now : Nat) : Row :=
  { r with
    product_name := pname
    brand_name := p.brand_name
    packaging_information := p.packaging_information
    packaging_size := p.packaging_size
    picture_url := p.picture_url
    description := p.description
    category := p.category
    product_url := p.product_url
    unit_size := p.unit_size
    case_size := p.case_size
    weight := p.weight
    upc := p.upc
    gtin := p.gtin
    supplier := p.supplier
    manufacturer := p.manufacturer
    specifications := p.specifications
    nutrition_info := p.nutrition_info
    ingredients := p.ingredients
    allergens := p.allergens
    storage_instructions := p.storage_instructions
    shelf_life := p.shelf_life
    updated_date := now
    scrape_session_id := sessionId
    structured_data := p.structured_data }

/-- Embedding of `upsertProduct` (`src/database/sysco-models.js`, lines
171-258) running against the schema of `createTable` (lines 82-123).  The
SQLite semantics of the statement under that schema, checked against a live
SQLite session, is:

* if a stored row matches both `sku` and `location_zip`, the conflict is the
  declared target `ON CONFLICT(sku, location_zip)` and the `DO UPDATE` arm
  runs;
* otherwise, if a stored row matches `sku` alone, the insert violates the
  column constraint `sku TEXT UNIQUE` (line 85), which is not the conflict
  target, and the statement aborts with a uniqueness error;
* otherwise the row is inserted (`product_name` is `NOT NULL`).

`now` stands for `CURRENT_TIMESTAMP`. -/
def upsertProduct (p : ProductData) (sessionId : Option String) (now : Nat)
    (store : Store) : Except String Store :=
  let zip := p.location_zip.getD "97209"
  match p.product_name with
  | none => .error "NOT NULL constraint failed: sysco_products.product_name"
  | some pname =>
    if store.any fun r => r.sku == p.sku && r.location_zip == zip then
      .ok (store.map fun r =>
        if r.sku == p.sku && r.location_zip == zip then
          updateRow r p pname sessionId now
        else r)
    else if store.any fun r => r.sku == p.sku then
      .error "UNIQUE constraint failed: sysco_products.sku"
    else
      .ok (store ++ [newRow p pname zip sessionId now (store.length + 1)])

/-- Result of `batchUpsertProducts`, together with the store it leaves. -/
structure BatchResult where
  store : Store
  saved : Nat
  errors : Nat
  deriving Repr, DecidableEq

/-- Loop body of `batchUpsertProducts` (`src/database/sysco-models.js`,
lines 276-289): one record is upserted inside its own try/catch; a success
increments `saved`, a failure increments `errors` and leaves the store
untouched. -/
def batchStep (sessionId : Option String) (now : Nat) (acc : BatchResult)
    (p : ProductData) : BatchResult :=
  match upsertProduct p sessionId now acc.store with
  | .ok st => { acc with store := st, saved := acc.saved + 1 }
  | .error _ => { acc with errors := acc.errors + 1 }

/-- Embedding of `batchUpsertProducts` (`src/database/sysco-models.js`,
lines 265-293): each record is upserted in order independently, and the
loop always proceeds to the next record. -/
def batchUpsertProducts (products : List ProductData)
    (sessionId : Option String) (now : Nat) (store : Store) : BatchResult :=
  products.foldl (batchStep sessionId now) ⟨store, 0, 0⟩

/-- Convenience constructor for concrete product records used in witnesses:
a fully populated record with the given `sku` and `location_zip` and a given
`description` as representative descriptive payload. -/
def mkProduct (sku zip descr : String) : ProductData :=
  { sku := sku
    product_name := some "Product"
    brand_name := some "Sysco"
    packaging_information := some "Standard packaging"
    packaging_size := some ""
    picture_url := some ""
    description := some descr
    category := some ""
    product_url := some ""
    unit_size := none
    case_size := some ""
    weight := some ""
    upc := some ""
    gtin := some ""
    supplier := none
    manufacturer := none
    specifications := none
    nutrition_info := none
    ingredients := some ""
    allergens := none
    storage_instructions := some ""
    shelf_life := none
    location_zip := some zip
    structured_data := none }

/-- Configured ZIP from `sysco-config.js`, line 119:
`process.env.SYSCO_LOCATION_ZIP || '97209'`, as a function of the optional
environment override. -/
def syscoConfigZipCode (envZip : Option String) : String :=
  match envZip with
  | none => "97209"
  | some z => if z = "" then "97209" else z

/-- Configured product-url filter substring from `sysco-config.js`,
line 175 (`productListing.productUrlFilter`). -/
def productUrlFilterConfig : String := "/product/"

/-- Substring that every href matched by the configured product-link
selector `a[href*="/product-details/"]` contains (`sysco-config.js`,
line 174). -/
def productLinksSelectorSubstring : String := "/product-details/"

/-- Snapshot of one product detail page, as the extraction script of
`extractProductDetails` sees it: for each configured selector, the trimmed
text (or `src` attribute) of the matched element when one is present, plus
the current url (`window.location.href`). -/
structure DetailPage where
  sku : Option String
  brandName : Option String
  packagingInformation : Option String
  packagingSize : Option String
  pictureUrl : Option String
  description : Option String
  category : Option String
  ingredients : Option String
  gtin : Option String
  upc : Option String
  caseSize : Option String
  weight : Option String
  storageInstructions : Option String
  productName : Option String
  locationZip : Option String
  productUrl : String
  deriving Repr, DecidableEq

/-- Helper of the extraction script (`part_000` of the scraper, lines
148-151): `element?.textContent?.trim() || ''` — the empty string when the
element is absent. -/
def getTextBySelector (o : Option String) : String := o.getD ""

/-- JavaScript `s || dflt` for a string `s`: the default when `s` is empty
(the only falsy string). -/
def orDefault (s dflt : String) : String := if s = "" then dflt else s

/-- Embedding of the field assembly of `extractProductDetails` (scraper
module, lines 145-205).  Each field is read independently; `brand_name`,
`product_name`, `description` and `packaging_information` fall back to fixed
placeholders, `location_zip` falls back to the literal `'97209'` when the
`div.zipcode` marker is absent (lines 176-180), and every other field falls
back to the empty string.  Fields the extraction never produces (such as
`unit_size`) are absent. -/
def extractProductDetails (pg : DetailPage) : ProductData :=
  { sku := getTextBySelector pg.sku
    brand_name := some (orDefault (getTextBySelector pg.brandName) "Sysco")
    product_name := some (orDefault (getTextBySelector pg.productName) "Product")
    packaging_information :=
      some (orDefault (getTextBySelector pg.packagingInformation) "Standard packaging")
    packaging_size := some (getTextBySelector pg.packagingSize)
    picture_url := some (getTextBySelector pg.pictureUrl)
    description :=
      some (orDefault (getTextBySelector pg.description) "Premium quality product from Sysco")
    category := some (getTextBySelector pg.category)
    ingredients := some (getTextBySelector pg.ingredients)
    gtin := some (getTextBySelector pg.gtin)
    upc := some (getTextBySelector pg.upc)
    case_size := some (getTextBySelector pg.caseSize)
    weight := some (getTextBySelector pg.weight)
    storage_instructions := some (getTextBySelector pg.storageInstructions)
    product_url := some pg.productUrl
    location_zip := some
      (match pg.locationZip with
       | none => "97209"
       | some t => orDefault t "97209")
    unit_size := none
    supplier := none
    manufacturer := none
    specifications := none
    nutrition_info := none
    allergens := none
    shelf_life := none
    structured_data := none }

/-- Order-preserving de-duplication keeping first occurrences, the
behaviour of `[...new Set(links)]` in `scrapeProductsFromPage`: the head is
kept and every later copy of it is dropped. -/
def setDedup : List String → List String
  | [] => []
  | h :: t => h :: (setDedup t).filter fun x => x ≠ h

/-- Scraping configuration slice used by the walkers (`sysco-config.js`,
lines 123-124 and 175). -/
structure ScrapeConfig where
  maxPagesPerCategory : Nat
  maxProductsPerCategory : Nat
  productUrlFilter : String
  deriving Repr, DecidableEq

/-- Environment of one category walk, abstracting the page-automation
driver: the hrefs matched by the product-link selector on each listing page
(1-based), the outcome of the fully retried `extractProductDetails` call per
url (`none` when it ultimately throws), the outcome of each
`navigateToNextPage` attempt made while on the given page, whether the
category element was found and clicked (`scrapeCategory`, lines 374-413:
`false` covers both an unknown category and a failed click, each returning
an empty list), and whether `returnToCategoryListPage` succeeds (its
last-resort refresh failing throws, lines 536-552). -/
structure CategoryEnv where
  pageHrefs : Nat → List String
  extractResult : String → Option ProductData
  nextPage : Nat → Bool
  categoryClicked : Bool
  returnOk : Bool

/-- Product-collection loop of `scrapeProductsFromPage` (scraper module,
lines 242-266): iterate over the links while the count of products
collected on this page is below `maxProducts`; a failed extraction is
skipped and the loop continues. -/
def collectProducts (env : CategoryEnv) (maxProducts : Nat) :
    List String → List ProductData → List ProductData
  | [], acc => acc
  | link :: rest, acc =>
    if acc.length < maxProducts then
      match env.extractResult link with
      | some p => collectProducts env maxProducts rest (acc ++ [p])
      | none => collectProducts env maxProducts rest acc
    else acc

/-- Embedding of `scrapeProductsFromPage` (scraper module, lines 221-283):
collect the matched hrefs that contain the configured filter substring,
de-duplicate them, extract up to `maxProductsPerCategory` products, and if
any were collected hand them to `batchUpsertProducts` (whose failure is
caught and ignored, lines 271-280).  Returns the page products and the
store left by the save.  The early return on an empty link list (lines
237-240) yields an empty product list and an untouched store, which is
exactly what the guarded save produces, so both exits share one code
path here. -/
def scrapeProductsFromPage (cfg : ScrapeConfig) (env : CategoryEnv)
    (pageNumber : Nat) (now : Nat) (store : Store) :
    List ProductData × Store :=
  let productLinks :=
    setDedup ((env.pageHrefs pageNumber).filter fun href =>
      jsIncludes href cfg.productUrlFilter)
  let categoryProducts :=
    if productLinks.isEmpty then []
    else collectProducts env cfg.maxProductsPerCategory productLinks []
  let storeAfter :=
    if categoryProducts.isEmpty then store
    else (batchUpsertProducts categoryProducts none now store).store
  (categoryProducts, storeAfter)

/-- Embedding of `navigateToNextPage` (scraper module, lines 285-367): the
whole next-control evaluation happens against the live page, so its outcome
while on a given page is part of the environment; `true` iff a pagination
control was successfully activated. -/
def navigateToNextPage (env : CategoryEnv) (currentPage : Nat) : Bool :=
  env.nextPage currentPage

/-- Result of one category walk: the order-preserving record list plus
instrumentation counting the listing pages scraped and the
`navigateToNextPage` attempts made. -/
structure CategoryRun where
  products : List ProductData
  pagesScraped : Nat
  navAttempts : Nat
  deriving Repr, DecidableEq

/-- Page loop of `scrapeCategory` (scraper module, lines 429-456), in fuel
form so that it computes by reduction.  One fuel unit is spent per
iteration; the caller passes `fuel = maxPagesPerCategory`, which is enough
because the loop breaks at `currentPage >= maxPagesPerCategory` before
recursing, so the fuel-0 branch matches the while-guard failure
`currentPage > maxPagesPerCategory`.  An iteration runs only while the
accumulated count is below `maxProductsPerCategory`; after scraping a page
it breaks if the page bound is reached, otherwise attempts one navigation
and stops if that fails. -/
def categoryLoop (cfg : ScrapeConfig) (env : CategoryEnv) (now : Nat) :
    Nat → Nat → List ProductData → Store → CategoryRun × Store
  | 0, _, allCategoryProducts, store => (⟨allCategoryProducts, 0, 0⟩, store)
  | fuel + 1, currentPage, allCategoryProducts, store =>
    if allCategoryProducts.length < cfg.maxProductsPerCategory then
      let pageProds := (scrapeProductsFromPage cfg env currentPage now store).1
      let storeAfter := (scrapeProductsFromPage cfg env currentPage now store).2
      let acc := allCategoryProducts ++ pageProds
      if cfg.maxPagesPerCategory ≤ currentPage then
        (⟨acc, 1, 0⟩, storeAfter)
      else if navigateToNextPage env currentPage then
        let next := categoryLoop cfg env now fuel (currentPage + 1) acc storeAfter
        (⟨next.1.products, next.1.pagesScraped + 1, next.1.navAttempts + 1⟩, next.2)
      else
        (⟨acc, 1, 1⟩, storeAfter)
    else
      (⟨allCategoryProducts, 0, 0⟩, store)

/-- Embedding of `scrapeCategory` together with its final
`returnToCategoryListPage` call (scraper module, lines 369-464).  A missing
or unclickable category element returns an empty list without walking any
page; otherwise the page loop runs from page 1, and if restoring the
category list page ultimately fails the error propagates to the caller
(after the per-page saves already happened). -/
def scrapeCategory (cfg : ScrapeConfig) (env : CategoryEnv) (now : Nat)
    (store : Store) : Except String CategoryRun × Store :=
  if env.categoryClicked then
    let run := categoryLoop cfg env now cfg.maxPagesPerCategory 1 [] store
    if env.returnOk then
      (.ok run.1, run.2)
    else
      (.error "Could not return to category list page", run.2)
  else
    (.ok ⟨[], 0, 0⟩, store)

/-- Result of `scrapeAllCategories`: all accumulated products, the export
attempts made (category name paired with the outcome of the export call),
and the final store. -/
structure AllResult where
  products : List ProductData
  exports : List (String × Bool)
  store : Store

/-- Loop body of `scrapeAllCategories` (scraper module, lines 558-586), for
one category.  The export sink is an external collaborator, passed as
`exportFn` over the current store.  On a successful walk the records are
appended and, if at least one record was produced, the export is invoked
with its outcome merely recorded (the inner catch at lines 570-576 discards
the failure); on a walk error the category is skipped (outer catch, lines
582-585) and traversal continues with the store the walk left behind. -/
def categoryStep (cfg : ScrapeConfig) (envOf : String → CategoryEnv)
    (exportFn : Store → Except String Unit) (now : Nat)
    (acc : AllResult) (category : String) : AllResult :=
  let res := scrapeCategory cfg (envOf category) now acc.store
  match res.1 with
  | .ok run =>
    if run.products.isEmpty then
      { products := acc.products ++ run.products
        exports := acc.exports
        store := res.2 }
    else
      let exportOutcome :=
        match exportFn res.2 with
        | .ok _ => true
        | .error _ => false
      { products := acc.products ++ run.products
        exports := acc.exports ++ [(category, exportOutcome)]
        store := res.2 }
  | .error _ => { acc with store := res.2 }

/-- Embedding of `scrapeAllCategories` (scraper module, lines 555-589): the
fixed category list is traversed in order, one `categoryStep` each. -/
def scrapeAllCategories (cfg : ScrapeConfig) (envOf : String → CategoryEnv)
    (exportFn : Store → Except String Unit) (now : Nat)
    (categories : List String) (store : Store) : AllResult :=
  categories.foldl (categoryStep cfg envOf exportFn now) ⟨[], [], store⟩

deriving instance DecidableEq for Except

/-- Store left behind by one upsert attempt as its caller sees it: the new
store on success, the unchanged store when the statement aborts (the
rejection propagates as an exception and the table keeps its rows). -/
def applyUpsert (p : ProductData) (sessionId : Option String) (now : Nat)
    (store : Store) : Store :=
  match upsertProduct p sessionId now store with
  | .ok st => st
  | .error _ => store

/-- Row predicate for the composite key of the `sysco_products` table. -/
def keyMatches (sku zip : String) (r : Row) : Bool :=
  r.sku == sku && r.location_zip == zip

/-- All fields overwritten by the `DO UPDATE SET` arm of `upsertProduct`
other than the provenance timestamps: the stored row carries exactly the
descriptive values of the given record. -/
def descriptiveFieldsFrom (r : Row) (p : ProductData) (pname : String) : Prop :=
  r.product_name = pname
  ∧ r.brand_name = p.brand_name
  ∧ r.packaging_information = p.packaging_information
  ∧ r.packaging_size = p.packaging_size
  ∧ r.picture_url = p.picture_url
  ∧ r.description = p.description
  ∧ r.category = p.category
  ∧ r.product_url = p.product_url
  ∧ r.unit_size = p.unit_size
  ∧ r.case_size = p.case_size
  ∧ r.weight = p.weight
  ∧ r.upc = p.upc
  ∧ r.gtin = p.gtin
  ∧ r.supplier = p.supplier
  ∧ r.manufacturer = p.manufacturer
  ∧ r.specifications = p.specifications
  ∧ r.nutrition_info = p.nutrition_info
  ∧ r.ingredients = p.ingredients
  ∧ r.allergens = p.allergens
  ∧ r.storage_instructions = p.storage_instructions
  ∧ r.shelf_life = p.shelf_life
  ∧ r.structured_data = p.structured_data

/-- Product detail page on which no configured selector matches any
element: every field element is absent, as is the location marker. -/
def emptyDetailPage : DetailPage :=
  ⟨none, none, none, none, none, none, none, none, none, none, none, none,
   none, none, none, "https://shop.sysco.com/app/product-details/123"⟩

/-- Products extracted from one listing page, as a function of the
environment alone (the products component of `scrapeProductsFromPage` reads
neither the clock nor the store). -/
def pageProducts (cfg : ScrapeConfig) (env : CategoryEnv) (n : Nat) :
    List ProductData :=
  (scrapeProductsFromPage cfg env n 0 []).1

/-- Outcome of one category walk viewed from its caller: the record list on
success, the propagated error otherwise (the walk outcome is independent of
the store, so the empty store is used as reference). -/
def categoryOutcome (cfg : ScrapeConfig) (env : CategoryEnv) (now : Nat) :
    Except String (List ProductData) :=
  match scrapeCategory cfg env now [] with
  | (.ok run, _) => .ok run.products
  | (.error e, _) => .error e

/-- Whether `scrapeAllCategories` invokes the export sink after walking the
given category: the walk must succeed and yield at least one record. -/
def exportedCategory (cfg : ScrapeConfig) (envOf : String → CategoryEnv)
    (now : Nat) (category : String) : Bool :=
  match categoryOutcome cfg (envOf category) now with
  | .ok ps => !ps.isEmpty
  | .error _ => false

/-- Concrete environment whose listing always reports a usable next-page
control: one matching product link on page 1, two on every later page. -/
def alwaysNextEnv : CategoryEnv :=
  { pageHrefs := fun n =>
      if n = 1 then ["https://x/product/u1"]
      else ["https://x/product/u2", "https://x/product/u3"]
    extractResult := fun u => some (mkProduct u "97209" "d")
    nextPage := fun _ => true
    categoryClicked := true
    returnOk := true }

/-- Concrete environment used against a small product cap: page 1 yields
one product, every later page yields two. -/
def overCapEnv : CategoryEnv :=
  { pageHrefs := fun n =>
      if n = 1 then ["https://y/product/v1"]
      else ["https://y/product/v2", "https://y/product/v3"]
    extractResult := fun u => some (mkProduct u "97209" "e")
    nextPage := fun _ => true
    categoryClicked := true
    returnOk := true }

/-- Concrete environment for a category whose walk completes normally with
one product and a single page. -/
def goodWalkEnv : CategoryEnv :=
  { pageHrefs := fun _ => ["https://z/product/w1"]
    extractResult := fun u => some (mkProduct u "97209" "g")
    nextPage := fun _ => false
    categoryClicked := true
    returnOk := true }

/-- Concrete environment for a category whose walk throws: the category
list page cannot be restored after the pages were scraped. -/
def badReturnEnv : CategoryEnv :=
  { pageHrefs := fun _ => ["https://z/product/w2"]
    extractResult := fun u => some (mkProduct u "97209" "h")
    nextPage := fun _ => false
    categoryClicked := true
    returnOk := false }

/-- Environment map in which exactly the category named B throws. -/
def isolationEnvOf : String → CategoryEnv :=
  fun c => if c = "B" then badReturnEnv else goodWalkEnv

/-- Concrete environment for a category that completes with zero products:
no listing page carries any matching link. -/
def zeroProductsEnv : CategoryEnv :=
  { pageHrefs := fun _ => []
    extractResult := fun _ => none
    nextPage := fun _ => false
    categoryClicked := true
    returnOk := true }



/-- Helper: when every attempt fails with a retryable error, the retry loop
started at attempt `a` with `r` attempts remaining performs `r + 1` further
invocations and ends with the error of the last attempt `a + r`. -/
theorem retryAux_always_error {α : Type} (op : Nat → Except JsError α)
    (cond : JsError → Bool) (e : Nat → JsError)
    (hop : ∀ n, op n = .error (e n)) (hcond : ∀ n, cond (e n) = true) :
    ∀ (r a : Nat), retryAux op cond a r = (.error (e (a + r)), r + 1) := by
  intro r
  induction r with
  | zero =>
    intro a
    simp [retryAux, hop a, hcond a]
  | succ r ih =>
    intro a
    have h1 := ih (a + 1)
    have harith : a + (r + 1) = (a + 1) + r := by omega
    rw [harith]
    simp [retryAux, hop a, hcond a, h1]

/-- Helper: when attempt `a + d` succeeds and every earlier attempt from
`a` on fails retryably, the retry loop started at attempt `a` performs
exactly `d + 1` invocations and returns the successful value. -/
theorem retryAux_first_success {α : Type} (op : Nat → Except JsError α)
    (cond : JsError → Bool) (v : α) :
    ∀ (d a r : Nat), op (a + d) = .ok v →
      (∀ j, a ≤ j → j < a + d → ∃ er, op j = .error er ∧ cond er = true) →
      d ≤ r →
      retryAux op cond a r = (.ok v, d + 1) := by
  intro d
  induction d with
  | zero =>
    intro a r hok _ _
    simp at hok
    simp [retryAux, hok]
  | succ d ih =>
    intro a r hok hpre hdr
    obtain ⟨er, hoe, hce⟩ := hpre a (Nat.le_refl a) (by omega)
    cases r with
    | zero => omega
    | succ r =>
      have hrec := ih (a + 1) r (by rw [← hok]; congr 1; omega)
        (fun j h1 h2 => hpre j (by omega) (by omega)) (by omega)
      simp [retryAux, hoe, hce, hrec]

/-- C2.  Retry bound and propagation.  First part: an operation that fails
on every attempt with an error the classifier `shouldRetryError` marks
retryable is invoked exactly 4 times by `retry` with `maxRetries = 3`, and
the error of the final (4th) attempt is re-thrown.  Second part: an
operation that succeeds on an attempt the policy reaches (all earlier
attempts failed retryably) yields that result immediately, with exactly
that many invocations and none after the success. -/
theorem retry_bound_and_propagation :
    (∀ {α : Type} (op : Nat → Except JsError α) (e : Nat → JsError),
       (∀ n, op n = .error (e n)) →
       (∀ n, shouldRetryError (e n) = true) →
       retry op 3 shouldRetryError = (.error (e 4), 4))
    ∧ (∀ {α : Type} (op : Nat → Except JsError α) (v : α) (k maxRetries : Nat),
       1 ≤ k → k ≤ maxRetries + 1 →
       op k = .ok v →
       (∀ j, 1 ≤ j → j < k → ∃ er, op j = .error er ∧ shouldRetryError er = true) →
       retry op maxRetries shouldRetryError = (.ok v, k)) := by
  constructor
  · intro α op e hop hcond
    have h := retryAux_always_error op shouldRetryError e hop hcond 3 1
    simpa [retry] using h
  · intro α op v k maxRetries hk1 hk2 hok hpre
    obtain ⟨d, rfl⟩ : ∃ d, k = d + 1 := ⟨k - 1, by omega⟩
    have h := retryAux_first_success op shouldRetryError v d 1 maxRetries
      (by rw [← hok]; congr 1; omega)
      (fun j h1 h2 => hpre j h1 (by omega)) (by omega)
    simpa [retry] using h

/-- Witness for C2, at concrete operations: one failing every attempt with
a timeout, one failing twice with a timeout and succeeding on attempt 3. -/
theorem retry_bound_and_propagation_witness :
    retry (fun _ => .error ⟨"TimeoutError", "timed out"⟩) 3 shouldRetryError
        = (Except.error (α := Nat) ⟨"TimeoutError", "timed out"⟩, 4)
    ∧ retry (fun n => if n < 3 then .error ⟨"TimeoutError", "timed out"⟩ else .ok 42) 3
        shouldRetryError = (.ok 42, 3) := by
  have hs : shouldRetryError ⟨"TimeoutError", "timed out"⟩ = true := by decide
  constructor
  · exact retry_bound_and_propagation.1
      (fun _ => .error ⟨"TimeoutError", "timed out"⟩)
      (fun _ => ⟨"TimeoutError", "timed out"⟩)
      (fun _ => rfl) (fun _ => hs)
  · exact retry_bound_and_propagation.2
      (fun n => if n < 3 then .error ⟨"TimeoutError", "timed out"⟩ else .ok 42)
      42 3 3 (by decide) (by decide) (by decide)
      (fun j h1 h2 => ⟨⟨"TimeoutError", "timed out"⟩, by simp [h2], hs⟩)

/-- Helper: one batch step increments exactly one of the two counters. -/
theorem batchStep_counts (sessionId : Option String) (now : Nat)
    (acc : BatchResult) (p : ProductData) :
    (batchStep sessionId now acc p).saved + (batchStep sessionId now acc p).errors
      = acc.saved + acc.errors + 1 := by
  unfold batchStep
  cases upsertProduct p sessionId now acc.store <;> simp <;> omega

/-- Helper: folding batch steps over a record list adds the list length to
the combined counters. -/
theorem batch_foldl_counts (sessionId : Option String) (now : Nat) :
    ∀ (ps : List ProductData) (acc : BatchResult),
      (ps.foldl (batchStep sessionId now) acc).saved
        + (ps.foldl (batchStep sessionId now) acc).errors
      = acc.saved + acc.errors + ps.length := by
  intro ps
  induction ps with
  | nil => intro acc; simp
  | cons p ps ih =>
    intro acc
    rw [List.foldl_cons, ih (batchStep sessionId now acc p), batchStep_counts]
    simp
    omega

/-- C5.  Batch isolation.  First part: for every batch, `saved + errors`
equals the batch length, so every record is attempted regardless of sibling
failures.  Second part, at the concrete batch of 5 records in which exactly
record 3 fails (its sku collides with record 1 under the sku-level UNIQUE
constraint): the call yields `saved = 4` and `errors = 1`, and the other 4
records are present in storage. -/
theorem batch_isolation :
    (∀ (products : List ProductData) (sessionId : Option String) (now : Nat) (store : Store),
       (batchUpsertProducts products sessionId now store).saved
         + (batchUpsertProducts products sessionId now store).errors
       = products.length)
    ∧ (let r := batchUpsertProducts
         [mkProduct "S1" "97209" "a", mkProduct "S2" "97209" "b",
          mkProduct "S1" "11111" "c", mkProduct "S4" "97209" "d",
          mkProduct "S5" "97209" "e"] none 7 []
       r.saved = 4 ∧ r.errors = 1
         ∧ r.store.map (fun row => (row.sku, row.location_zip, row.description))
             = [("S1", "97209", some "a"), ("S2", "97209", some "b"),
                ("S4", "97209", some "d"), ("S5", "97209", some "e")]) := by
  constructor
  · intro products sessionId now store
    have h := batch_foldl_counts sessionId now products ⟨store, 0, 0⟩
    simpa [batchUpsertProducts] using h
  · decide

/-- C10.  Product-link filtering.  The configured filter substring
`/product/` does not occur in `/product-details/`, the substring every
selector-matched href contains; and on any listing page none of whose
matched hrefs contains the filter substring, `scrapeProductsFromPage`
collects no links, yields zero products and leaves the store untouched. -/
theorem product_link_filter_mismatch :
    jsIncludes productLinksSelectorSubstring productUrlFilterConfig = false
    ∧ (∀ (cfg : ScrapeConfig) (env : CategoryEnv) (n now : Nat) (store : Store),
        cfg.productUrlFilter = productUrlFilterConfig →
        (∀ href ∈ env.pageHrefs n, jsIncludes href cfg.productUrlFilter = false) →
        scrapeProductsFromPage cfg env n now store = ([], store)) := by
  constructor
  · decide
  · intro cfg env n now store _ h
    have hfil : (env.pageHrefs n).filter
        (fun href => jsIncludes href cfg.productUrlFilter) = [] := by
      rw [List.filter_eq_nil_iff]
      intro a ha
      simp [h a ha]
    simp [scrapeProductsFromPage, hfil, setDedup]

/-- Witness for C10 at a concrete listing page with one matched
product-details href. -/
theorem product_link_filter_mismatch_witness :
    scrapeProductsFromPage ⟨10, 500, productUrlFilterConfig⟩
      ⟨fun n => if n = 1 then ["https://shop.sysco.com/app/product-details/123"] else [],
       fun _ => none, fun _ => false, true, true⟩ 1 0 [] = ([], []) :=
  product_link_filter_mismatch.2 _ _ 1 0 [] rfl (by decide)

/-- C3.  Evaluation of the upsert at the failing input: upserting
sku A at location 11111 into an empty store succeeds with one row, and
upserting the same sku at location 22222 is then rejected by the column
constraint `sku TEXT UNIQUE` instead of inserting a second row, contrary
to the composite (sku, location_zip) uniqueness the schema also declares
and the spec states. -/
theorem composite_key_code_bug :
    (upsertProduct (mkProduct "A" "11111" "first") none 5 []).toOption.map List.length
        = some 1
    ∧ upsertProduct (mkProduct "A" "22222" "second") none 6
        ((upsertProduct (mkProduct "A" "11111" "first") none 5 []).toOption.getD [])
      = .error "UNIQUE constraint failed: sysco_products.sku" := by
  decide

/-- C1 (amended).  Upsert idempotence: for records sharing a (sku,
location_zip) key, upserting both into a store holding no row with that sku
leaves exactly one row for the key, carrying the descriptive fields of the
second record, the `scraped_date` of the first call and the `updated_date`
of the second.  The hypothesis is on the sku alone rather than the full
key, as forced by the sku-level UNIQUE constraint exhibited in the
counterexample. -/
theorem upsert_twice_converges (p1 p2 : ProductData) (n1 n2 : String)
    (sid1 sid2 : Option String) (t1 t2 : Nat) (store : Store)
    (hsku : p1.sku = p2.sku)
    (hzip : p1.location_zip.getD "97209" = p2.location_zip.getD "97209")
    (hn1 : p1.product_name = some n1) (hn2 : p2.product_name = some n2)
    (hfresh : ∀ r ∈ store, r.sku ≠ p1.sku) :
    ∃ st1 st2,
      upsertProduct p1 sid1 t1 store = .ok st1
      ∧ upsertProduct p2 sid2 t2 st1 = .ok st2
      ∧ ∃ row,
          st2.filter (keyMatches p2.sku (p2.location_zip.getD "97209")) = [row]
          ∧ descriptiveFieldsFrom row p2 n2
          ∧ row.scraped_date = t1 ∧ row.updated_date = t2 := by
  have hfresh2 : ∀ r ∈ store, r.sku ≠ p2.sku := by
    intro r hr
    rw [← hsku]
    exact hfresh r hr
  have hany1 : (store.any fun r =>
      r.sku == p1.sku && r.location_zip == p1.location_zip.getD "97209") = false := by
    rw [List.any_eq_false]
    intro r hr
    simp [hfresh r hr]
  have hany2 : (store.any fun r => r.sku == p1.sku) = false := by
    rw [List.any_eq_false]
    intro r hr
    simp [hfresh r hr]
  set nr := newRow p1 n1 (p1.location_zip.getD "97209") sid1 t1 (store.length + 1) with hnr
  have h1 : upsertProduct p1 sid1 t1 store = .ok (store ++ [nr]) := by
    unfold upsertProduct
    rw [hn1]
    simp [hany1, hany2, hnr]
  have hnrsku : nr.sku = p2.sku := by rw [hnr]; simp [newRow, hsku]
  have hnrzip : nr.location_zip = p2.location_zip.getD "97209" := by
    rw [hnr]; simp [newRow, hzip]
  have hanyK : ((store ++ [nr]).any fun r =>
      r.sku == p2.sku && r.location_zip == p2.location_zip.getD "97209") = true := by
    rw [List.any_eq_true]
    exact ⟨nr, by simp, by simp [hnrsku, hnrzip]⟩
  set f : Row → Row := fun r =>
    if r.sku == p2.sku && r.location_zip == p2.location_zip.getD "97209" then
      updateRow r p2 n2 sid2 t2
    else r with hf
  have h2 : upsertProduct p2 sid2 t2 (store ++ [nr]) = .ok ((store ++ [nr]).map f) := by
    unfold upsertProduct
    rw [hn2]
    simp only [hanyK, if_true]
  refine ⟨store ++ [nr], (store ++ [nr]).map f, h1, h2, updateRow nr p2 n2 sid2 t2, ?_, ?_, ?_, ?_⟩
  · rw [List.map_append, List.filter_append]
    have hdrop : (store.map f).filter
        (keyMatches p2.sku (p2.location_zip.getD "97209")) = [] := by
      rw [List.filter_eq_nil_iff]
      intro a ha
      obtain ⟨r, hr, rfl⟩ := List.mem_map.mp ha
      have hne : r.sku ≠ p2.sku := hfresh2 r hr
      simp [hf, keyMatches, hne]
    have hkeep : ([nr].map f).filter
        (keyMatches p2.sku (p2.location_zip.getD "97209"))
        = [updateRow nr p2 n2 sid2 t2] := by
      have hcond : (nr.sku == p2.sku && nr.location_zip == p2.location_zip.getD "97209") = true := by
        simp [hnrsku, hnrzip]
      have hfnr : f nr = updateRow nr p2 n2 sid2 t2 := by
        rw [hf]
        simp [hcond]
      have hkm : keyMatches p2.sku (p2.location_zip.getD "97209")
          (updateRow nr p2 n2 sid2 t2) = true := by
        simp [keyMatches, updateRow, hnrsku, hnrzip]
      simp [hfnr, hkm]
    rw [hdrop, hkeep, List.nil_append]
  · simp [descriptiveFieldsFrom, updateRow]
  · simp [updateRow, hnr, newRow]
  · simp [updateRow]

/-- Witness for C1 at two concrete records upserted into the empty
store. -/
theorem upsert_twice_converges_witness :
    ∃ st1 st2,
      upsertProduct (mkProduct "A" "11111" "v1") none 2 [] = .ok st1
      ∧ upsertProduct (mkProduct "A" "11111" "v2") none 3 st1 = .ok st2
      ∧ ∃ row,
          st2.filter (keyMatches "A" "11111") = [row]
          ∧ descriptiveFieldsFrom row (mkProduct "A" "11111" "v2") "Product"
          ∧ row.scraped_date = 2 ∧ row.updated_date = 3 :=
  upsert_twice_converges (mkProduct "A" "11111" "v1") (mkProduct "A" "11111" "v2")
    "Product" "Product" none none 2 3 [] rfl rfl rfl rfl (by simp)

/-- Counterexample to C1 as stated: a store holding sku A at location
99999 has no row for the key (A, 11111), yet upserting two records with
that key leaves zero rows for it, not one, because both statements abort on
the sku-level UNIQUE constraint. -/
theorem upsert_twice_counterexample :
    ((applyUpsert (mkProduct "A" "99999" "other") none 1 []).filter
        (keyMatches "A" "11111")).length = 0
    ∧ ((applyUpsert (mkProduct "A" "11111" "v2") none 3
          (applyUpsert (mkProduct "A" "11111" "v1") none 2
            (applyUpsert (mkProduct "A" "99999" "other") none 1 []))).filter
        (keyMatches "A" "11111")).length ≠ 1 := by decide

/-- C8 (amended).  Field defaulting in `extractProductDetails`: a missing
location marker yields the fixed literal 97209 (not the configured ZIP), a
missing brand, product name or description yields its fixed placeholder,
missing packaging information yields the placeholder `Standard packaging`
(not the empty string), and every other missing field yields the empty
string. -/
theorem field_defaulting (pg : DetailPage) :
    (pg.locationZip = none → (extractProductDetails pg).location_zip = some "97209")
    ∧ (pg.brandName = none → (extractProductDetails pg).brand_name = some "Sysco")
    ∧ (pg.productName = none → (extractProductDetails pg).product_name = some "Product")
    ∧ (pg.description = none →
        (extractProductDetails pg).description = some "Premium quality product from Sysco")
    ∧ (pg.packagingInformation = none →
        (extractProductDetails pg).packaging_information = some "Standard packaging")
    ∧ (pg.sku = none → (extractProductDetails pg).sku = "")
    ∧ (pg.packagingSize = none → (extractProductDetails pg).packaging_size = some "")
    ∧ (pg.pictureUrl = none → (extractProductDetails pg).picture_url = some "")
    ∧ (pg.category = none → (extractProductDetails pg).category = some "")
    ∧ (pg.ingredients = none → (extractProductDetails pg).ingredients = some "")
    ∧ (pg.gtin = none → (extractProductDetails pg).gtin = some "")
    ∧ (pg.upc = none → (extractProductDetails pg).upc = some "")
    ∧ (pg.caseSize = none → (extractProductDetails pg).case_size = some "")
    ∧ (pg.weight = none → (extractProductDetails pg).weight = some "")
    ∧ (pg.storageInstructions = none →
        (extractProductDetails pg).storage_instructions = some "") := by
  refine ⟨?_, ?_, ?_, ?_, ?_, ?_, ?_, ?_, ?_, ?_, ?_, ?_, ?_, ?_, ?_⟩ <;>
    intro h <;> simp [extractProductDetails, getTextBySelector, orDefault, h]

/-- Witness for C8 at the detail page on which no selector matches. -/
theorem field_defaulting_witness :
    (extractProductDetails emptyDetailPage).location_zip = some "97209"
    ∧ (extractProductDetails emptyDetailPage).brand_name = some "Sysco"
    ∧ (extractProductDetails emptyDetailPage).product_name = some "Product"
    ∧ (extractProductDetails emptyDetailPage).description
        = some "Premium quality product from Sysco"
    ∧ (extractProductDetails emptyDetailPage).packaging_information
        = some "Standard packaging"
    ∧ (extractProductDetails emptyDetailPage).sku = ""
    ∧ (extractProductDetails emptyDetailPage).packaging_size = some ""
    ∧ (extractProductDetails emptyDetailPage).picture_url = some ""
    ∧ (extractProductDetails emptyDetailPage).category = some ""
    ∧ (extractProductDetails emptyDetailPage).ingredients = some ""
    ∧ (extractProductDetails emptyDetailPage).gtin = some ""
    ∧ (extractProductDetails emptyDetailPage).upc = some ""
    ∧ (extractProductDetails emptyDetailPage).case_size = some ""
    ∧ (extractProductDetails emptyDetailPage).weight = some ""
    ∧ (extractProductDetails emptyDetailPage).storage_instructions = some "" := by
  have h := field_defaulting emptyDetailPage
  exact ⟨h.1 rfl, h.2.1 rfl, h.2.2.1 rfl, h.2.2.2.1 rfl, h.2.2.2.2.1 rfl,
    h.2.2.2.2.2.1 rfl, h.2.2.2.2.2.2.1 rfl, h.2.2.2.2.2.2.2.1 rfl,
    h.2.2.2.2.2.2.2.2.1 rfl, h.2.2.2.2.2.2.2.2.2.1 rfl,
    h.2.2.2.2.2.2.2.2.2.2.1 rfl, h.2.2.2.2.2.2.2.2.2.2.2.1 rfl,
    h.2.2.2.2.2.2.2.2.2.2.2.2.1 rfl, h.2.2.2.2.2.2.2.2.2.2.2.2.2.1 rfl,
    h.2.2.2.2.2.2.2.2.2.2.2.2.2.2 rfl⟩

/-- Counterexample to C8 as stated: with the configured ZIP overridden to
10001, an absent location marker still yields the literal 97209, and the
missing packaging information yields a placeholder, not the empty
string. -/
theorem field_defaulting_counterexample :
    (extractProductDetails emptyDetailPage).location_zip
        ≠ some (syscoConfigZipCode (some "10001"))
    ∧ (extractProductDetails emptyDetailPage).packaging_information ≠ some "" := by
  decide

/-- Helper: the products a listing page yields depend only on the
environment and page number, not on the clock or the store. -/
theorem scrapeProductsFromPage_fst (cfg : ScrapeConfig) (env : CategoryEnv)
    (n now : Nat) (store : Store) :
    (scrapeProductsFromPage cfg env n now store).1 = pageProducts cfg env n := rfl

/-- Helper: the traversal outcome of the page loop (records, page count,
navigation count) is independent of the store it threads. -/
theorem categoryLoop_run_store_indep (cfg : ScrapeConfig) (env : CategoryEnv) (now : Nat) :
    ∀ (fuel page : Nat) (all : List ProductData) (s1 s2 : Store),
      (categoryLoop cfg env now fuel page all s1).1
        = (categoryLoop cfg env now fuel page all s2).1 := by
  intro fuel
  induction fuel with
  | zero => intro page all s1 s2; rfl
  | succ fuel ih =>
    intro page all s1 s2
    simp only [categoryLoop]
    by_cases hg : all.length < cfg.maxProductsPerCategory
    · simp only [if_pos hg]
      rw [scrapeProductsFromPage_fst cfg env page now s1,
          scrapeProductsFromPage_fst cfg env page now s2]
      by_cases hp : cfg.maxPagesPerCategory ≤ page
      · simp [if_pos hp]
      · simp only [if_neg hp]
        by_cases hn : navigateToNextPage env page
        · simp only [if_pos hn]
          rw [ih (page + 1) (all ++ pageProducts cfg env page)
            ((scrapeProductsFromPage cfg env page now s1).2)
            ((scrapeProductsFromPage cfg env page now s2).2)]
        · simp [if_neg hn]
    · simp [if_neg hg]

/-- Helper: the page loop scrapes at most `fuel` pages. -/
theorem categoryLoop_pages_le (cfg : ScrapeConfig) (env : CategoryEnv) (now : Nat) :
    ∀ (fuel page : Nat) (all : List ProductData) (store : Store),
      (categoryLoop cfg env now fuel page all store).1.pagesScraped ≤ fuel := by
  intro fuel
  induction fuel with
  | zero => intro page all store; exact Nat.le_refl 0
  | succ fuel ih =>
    intro page all store
    simp only [categoryLoop]
    by_cases hg : all.length < cfg.maxProductsPerCategory
    · simp only [if_pos hg]
      by_cases hp : cfg.maxPagesPerCategory ≤ page
      · simp [if_pos hp]
      · simp only [if_neg hp]
        by_cases hn : navigateToNextPage env page
        · simp only [if_pos hn]
          have h := ih (page + 1)
            (all ++ (scrapeProductsFromPage cfg env page now store).1)
            ((scrapeProductsFromPage cfg env page now store).2)
          simp only [Nat.add_le_add_iff_right]
          exact h
        · simp [if_neg hn]
    · simp [if_neg hg]

/-- C6.  Pagination termination.  First part: with `maxPagesPerCategory
= 3`, an environment that always reports a usable next control, and page
yields below the product cap, the walker scrapes exactly 3 pages and makes
exactly 2 page-advance navigations, so it never attempts the navigation
toward a 4th page.  Second part: in general the walker never scrapes more
than `maxPagesPerCategory` pages. -/
theorem pagination_termination :
    (∀ (cfg : ScrapeConfig) (env : CategoryEnv) (now : Nat) (store : Store),
       cfg.maxPagesPerCategory = 3 →
       (∀ n, env.nextPage n = true) →
       (pageProducts cfg env 1).length + (pageProducts cfg env 2).length
           + (pageProducts cfg env 3).length < cfg.maxProductsPerCategory →
       (categoryLoop cfg env now cfg.maxPagesPerCategory 1 [] store).1.pagesScraped = 3
       ∧ (categoryLoop cfg env now cfg.maxPagesPerCategory 1 [] store).1.navAttempts = 2)
    ∧ (∀ (cfg : ScrapeConfig) (env : CategoryEnv) (now : Nat) (store : Store),
       (categoryLoop cfg env now cfg.maxPagesPerCategory 1 [] store).1.pagesScraped
         ≤ cfg.maxPagesPerCategory) := by
  constructor
  · intro cfg env now store h3 hnext hcap
    have hcap0 : 0 < cfg.maxProductsPerCategory := by omega
    have hg1 : (pageProducts cfg env 1).length < cfg.maxProductsPerCategory := by omega
    have hg2 : (pageProducts cfg env 1).length + (pageProducts cfg env 2).length
        < cfg.maxProductsPerCategory := by omega
    have hp1 : ¬ cfg.maxPagesPerCategory ≤ 1 := by omega
    have hp2 : ¬ cfg.maxPagesPerCategory ≤ 2 := by omega
    have hp3 : cfg.maxPagesPerCategory ≤ 3 := by omega
    rw [h3]
    constructor <;>
      simp [categoryLoop, scrapeProductsFromPage_fst, navigateToNextPage, hnext,
        hcap0, hg1, hg2, hp1, hp2, hp3]
  · intro cfg env now store
    exact categoryLoop_pages_le cfg env now cfg.maxPagesPerCategory 1 [] store

/-- Witness for C6 at a concrete always-next environment with small
pages. -/
theorem pagination_termination_witness :
    (∀ n, alwaysNextEnv.nextPage n = true)
    ∧ (categoryLoop ⟨3, 500, "/product/"⟩ alwaysNextEnv 0 3 1 [] []).1.pagesScraped = 3
    ∧ (categoryLoop ⟨3, 500, "/product/"⟩ alwaysNextEnv 0 3 1 [] []).1.navAttempts = 2 := by
  have h := pagination_termination.1 ⟨3, 500, "/product/"⟩ alwaysNextEnv 0 []
    rfl (fun _ => rfl) (by decide)
  exact ⟨fun _ => rfl, h.1, h.2⟩

/-- Helper: the per-page collection loop never grows past the larger of
its starting count and the cap. -/
theorem collectProducts_length_le (env : CategoryEnv) (m : Nat) :
    ∀ (links : List String) (acc : List ProductData),
      (collectProducts env m links acc).length ≤ max acc.length m := by
  intro links
  induction links with
  | nil => intro acc; simp [collectProducts]
  | cons l ls ih =>
    intro acc
    simp only [collectProducts]
    by_cases h : acc.length < m
    · simp only [if_pos h]
      cases hx : env.extractResult l with
      | some p =>
        have h2 := ih (acc ++ [p])
        simp only [List.length_append, List.length_singleton] at h2
        have hmax : max (acc.length + 1) m = m := Nat.max_eq_right (by omega)
        rw [hmax] at h2
        exact le_trans h2 (Nat.le_max_right _ _)
      | none =>
        exact ih acc
    · simp only [if_neg h]
      exact Nat.le_max_left _ _

/-- Helper: a single listing page yields at most `maxProductsPerCategory`
products. -/
theorem pageProducts_length_le (cfg : ScrapeConfig) (env : CategoryEnv)
    (n now : Nat) (store : Store) :
    (scrapeProductsFromPage cfg env n now store).1.length ≤ cfg.maxProductsPerCategory := by
  unfold scrapeProductsFromPage
  by_cases h : (setDedup ((env.pageHrefs n).filter fun href =>
      jsIncludes href cfg.productUrlFilter)).isEmpty
  · simp [h]
  · simp only [h, if_false, Bool.false_eq_true]
    have := collectProducts_length_le env cfg.maxProductsPerCategory
      (setDedup ((env.pageHrefs n).filter fun href =>
        jsIncludes href cfg.productUrlFilter)) []
    simpa using this

/-- Helper: the page loop accumulator never exceeds the larger of its
starting length and twice the cap minus one. -/
theorem categoryLoop_total_le (cfg : ScrapeConfig) (env : CategoryEnv) (now : Nat) :
    ∀ (fuel page : Nat) (all : List ProductData) (store : Store),
      (categoryLoop cfg env now fuel page all store).1.products.length
        ≤ max all.length (2 * cfg.maxProductsPerCategory - 1) := by
  intro fuel
  induction fuel with
  | zero => intro page all store; simp [categoryLoop]
  | succ fuel ih =>
    intro page all store
    by_cases hg : all.length < cfg.maxProductsPerCategory
    · have hpp := pageProducts_length_le cfg env page now store
      have hacc : (all ++ (scrapeProductsFromPage cfg env page now store).1).length
          ≤ 2 * cfg.maxProductsPerCategory - 1 := by
        rw [List.length_append]
        omega
      simp only [categoryLoop, if_pos hg]
      by_cases hp : cfg.maxPagesPerCategory ≤ page
      · simp only [if_pos hp]
        exact le_trans hacc (Nat.le_max_right _ _)
      · simp only [if_neg hp]
        by_cases hn : navigateToNextPage env page
        · simp only [if_pos hn]
          have hrec := ih (page + 1)
            (all ++ (scrapeProductsFromPage cfg env page now store).1)
            ((scrapeProductsFromPage cfg env page now store).2)
          have hmax : max (all ++ (scrapeProductsFromPage cfg env page now store).1).length
              (2 * cfg.maxProductsPerCategory - 1) = 2 * cfg.maxProductsPerCategory - 1 :=
            Nat.max_eq_right hacc
          rw [hmax] at hrec
          exact le_trans hrec (Nat.le_max_right _ _)
        · simp only [if_neg hn]
          exact le_trans hacc (Nat.le_max_right _ _)
    · simp [categoryLoop, if_neg hg]

/-- C7 (amended).  Per-category product cap: each listing page extracts
at most `maxProductsPerCategory` products, with the cap counted per page
from zero rather than reduced by the already-collected count, so one
category can accumulate more than `maxProductsPerCategory` records but
never more than twice the cap minus one. -/
theorem product_cap_per_page_and_total :
    (∀ (cfg : ScrapeConfig) (env : CategoryEnv) (n now : Nat) (store : Store),
       (scrapeProductsFromPage cfg env n now store).1.length ≤ cfg.maxProductsPerCategory)
    ∧ (∀ (cfg : ScrapeConfig) (env : CategoryEnv) (now : Nat) (store : Store),
       (categoryLoop cfg env now cfg.maxPagesPerCategory 1 [] store).1.products.length
         ≤ 2 * cfg.maxProductsPerCategory - 1) := by
  constructor
  · exact pageProducts_length_le
  · intro cfg env now store
    have h := categoryLoop_total_le cfg env now cfg.maxPagesPerCategory 1 [] store
    simpa using h

/-- Counterexample to C7 as stated: with a cap of 2 products per
category, a walk over two pages yielding 1 and 2 products accumulates 3
records, exceeding the cap. -/
theorem product_cap_counterexample :
    (categoryLoop ⟨2, 2, "/product/"⟩ overCapEnv 0 2 1 [] []).1.products.length = 3
    ∧ ¬ ((categoryLoop ⟨2, 2, "/product/"⟩ overCapEnv 0 2 1 [] []).1.products.length
          ≤ (⟨2, 2, "/product/"⟩ : ScrapeConfig).maxProductsPerCategory) := by
  decide

/-- Helper: one orchestrator step appends its category contribution to
the accumulator, and that contribution depends only on the incoming
store. -/
theorem categoryStep_shape (cfg : ScrapeConfig) (envOf : String → CategoryEnv)
    (exportFn : Store → Except String Unit) (now : Nat)
    (acc : AllResult) (c : String) :
    categoryStep cfg envOf exportFn now acc c
      = ⟨acc.products ++ (categoryStep cfg envOf exportFn now ⟨[], [], acc.store⟩ c).products,
         acc.exports ++ (categoryStep cfg envOf exportFn now ⟨[], [], acc.store⟩ c).exports,
         (categoryStep cfg envOf exportFn now ⟨[], [], acc.store⟩ c).store⟩ := by
  unfold categoryStep
  cases hsc : (scrapeCategory cfg (envOf c) now acc.store).1 with
  | ok run =>
    by_cases he : run.products.isEmpty
    · simp [hsc, he]
    · simp [hsc, he]
  | error e => simp [hsc]

/-- Helper: the orchestrator fold from any accumulator is the run from
the empty accumulator on the same store, appended to it. -/
theorem scrapeAll_foldl_decompose (cfg : ScrapeConfig) (envOf : String → CategoryEnv)
    (exportFn : Store → Except String Unit) (now : Nat) :
    ∀ (cats : List String) (acc : AllResult),
      List.foldl (categoryStep cfg envOf exportFn now) acc cats
        = ⟨acc.products ++ (scrapeAllCategories cfg envOf exportFn now cats acc.store).products,
           acc.exports ++ (scrapeAllCategories cfg envOf exportFn now cats acc.store).exports,
           (scrapeAllCategories cfg envOf exportFn now cats acc.store).store⟩ := by
  intro cats
  induction cats with
  | nil =>
    intro acc
    obtain ⟨ps, ex, st⟩ := acc
    simp [scrapeAllCategories]
  | cons c cs ih =>
    intro acc
    rw [List.foldl_cons, ih (categoryStep cfg envOf exportFn now acc c)]
    rw [categoryStep_shape cfg envOf exportFn now acc c]
    have hrhs : scrapeAllCategories cfg envOf exportFn now (c :: cs) acc.store
        = ⟨(categoryStep cfg envOf exportFn now ⟨[], [], acc.store⟩ c).products
             ++ (scrapeAllCategories cfg envOf exportFn now cs
                  (categoryStep cfg envOf exportFn now ⟨[], [], acc.store⟩ c).store).products,
           (categoryStep cfg envOf exportFn now ⟨[], [], acc.store⟩ c).exports
             ++ (scrapeAllCategories cfg envOf exportFn now cs
                  (categoryStep cfg envOf exportFn now ⟨[], [], acc.store⟩ c).store).exports,
           (scrapeAllCategories cfg envOf exportFn now cs
              (categoryStep cfg envOf exportFn now ⟨[], [], acc.store⟩ c).store).store⟩ := by
      show List.foldl (categoryStep cfg envOf exportFn now) ⟨[], [], acc.store⟩ (c :: cs) = _
      rw [List.foldl_cons, ih (categoryStep cfg envOf exportFn now ⟨[], [], acc.store⟩ c)]
    rw [hrhs]
    simp [List.append_assoc]

/-- C4.  Category isolation: when the walk of category b throws, the run
over `pre ++ b :: post` equals the run over `pre`, followed by the store
effects of the walk of b alone (its per-page saves persist, its records and
export are dropped), followed by the run over `post` from the store b left.
Categories before and after b thus complete with their records accumulated,
persisted and exported, and every category is attempted. -/
theorem category_isolation (cfg : ScrapeConfig) (envOf : String → CategoryEnv)
    (exportFn : Store → Except String Unit) (now : Nat) (store : Store)
    (pre post : List String) (b : String)
    (hclick : (envOf b).categoryClicked = true)
    (hret : (envOf b).returnOk = false) :
    scrapeAllCategories cfg envOf exportFn now (pre ++ b :: post) store
      = ⟨(scrapeAllCategories cfg envOf exportFn now pre store).products
           ++ (scrapeAllCategories cfg envOf exportFn now post
                ((scrapeCategory cfg (envOf b) now
                   (scrapeAllCategories cfg envOf exportFn now pre store).store).2)).products,
         (scrapeAllCategories cfg envOf exportFn now pre store).exports
           ++ (scrapeAllCategories cfg envOf exportFn now post
                ((scrapeCategory cfg (envOf b) now
                   (scrapeAllCategories cfg envOf exportFn now pre store).store).2)).exports,
         (scrapeAllCategories cfg envOf exportFn now post
            ((scrapeCategory cfg (envOf b) now
               (scrapeAllCategories cfg envOf exportFn now pre store).store).2)).store⟩ := by
  have hstep : ∀ acc : AllResult, categoryStep cfg envOf exportFn now acc b
      = ⟨acc.products, acc.exports, (scrapeCategory cfg (envOf b) now acc.store).2⟩ := by
    intro acc
    have hsc : (scrapeCategory cfg (envOf b) now acc.store).1
        = .error "Could not return to category list page" := by
      simp [scrapeCategory, hclick, hret]
    simp [categoryStep, hsc]
  show List.foldl (categoryStep cfg envOf exportFn now) ⟨[], [], store⟩ (pre ++ b :: post) = _
  rw [List.foldl_append, List.foldl_cons]
  rw [hstep (List.foldl (categoryStep cfg envOf exportFn now) ⟨[], [], store⟩ pre)]
  rw [scrapeAll_foldl_decompose cfg envOf exportFn now post]
  rfl

/-- Witness for C4 at the concrete three-category run in which exactly B
throws. -/
theorem category_isolation_witness :
    scrapeAllCategories ⟨1, 500, "/product/"⟩ isolationEnvOf (fun _ => .ok ()) 0
        (["A"] ++ "B" :: ["C"]) []
      = ⟨(scrapeAllCategories ⟨1, 500, "/product/"⟩ isolationEnvOf (fun _ => .ok ()) 0 ["A"] []).products
           ++ (scrapeAllCategories ⟨1, 500, "/product/"⟩ isolationEnvOf (fun _ => .ok ()) 0 ["C"]
                ((scrapeCategory ⟨1, 500, "/product/"⟩ (isolationEnvOf "B") 0
                   (scrapeAllCategories ⟨1, 500, "/product/"⟩ isolationEnvOf (fun _ => .ok ()) 0 ["A"] []).store).2)).products,
         (scrapeAllCategories ⟨1, 500, "/product/"⟩ isolationEnvOf (fun _ => .ok ()) 0 ["A"] []).exports
           ++ (scrapeAllCategories ⟨1, 500, "/product/"⟩ isolationEnvOf (fun _ => .ok ()) 0 ["C"]
                ((scrapeCategory ⟨1, 500, "/product/"⟩ (isolationEnvOf "B") 0
                   (scrapeAllCategories ⟨1, 500, "/product/"⟩ isolationEnvOf (fun _ => .ok ()) 0 ["A"] []).store).2)).exports,
         (scrapeAllCategories ⟨1, 500, "/product/"⟩ isolationEnvOf (fun _ => .ok ()) 0 ["C"]
            ((scrapeCategory ⟨1, 500, "/product/"⟩ (isolationEnvOf "B") 0
               (scrapeAllCategories ⟨1, 500, "/product/"⟩ isolationEnvOf (fun _ => .ok ()) 0 ["A"] []).store).2)).store⟩ :=
  category_isolation ⟨1, 500, "/product/"⟩ isolationEnvOf (fun _ => .ok ()) 0 []
    ["A"] ["C"] "B" (by decide) (by decide)

/-- Helper: seen from the orchestrator, a category walk produces the
store-independent `categoryOutcome`. -/
theorem scrapeCategory_outcome (cfg : ScrapeConfig) (env : CategoryEnv) (now : Nat)
    (s : Store) :
    Except.map CategoryRun.products (scrapeCategory cfg env now s).1
      = categoryOutcome cfg env now := by
  unfold categoryOutcome
  by_cases hc : env.categoryClicked
  · by_cases hr : env.returnOk
    · simp [scrapeCategory, hc, hr, Except.map]
      exact congrArg CategoryRun.products
        (categoryLoop_run_store_indep cfg env now cfg.maxPagesPerCategory 1 [] s [])
    · simp [scrapeCategory, hc, hr, Except.map]
  · simp [scrapeCategory, hc, Except.map]

/-- Helper: one orchestrator step appends an export attempt for exactly
the categories whose walk succeeds with at least one record. -/
theorem categoryStep_exports_fst (cfg : ScrapeConfig) (envOf : String → CategoryEnv)
    (exportFn : Store → Except String Unit) (now : Nat) (acc : AllResult) (c : String) :
    (categoryStep cfg envOf exportFn now acc c).exports.map Prod.fst
      = acc.exports.map Prod.fst
        ++ (if exportedCategory cfg envOf now c then [c] else []) := by
  unfold categoryStep
  cases hsc : (scrapeCategory cfg (envOf c) now acc.store).1 with
  | ok run =>
    have ho : categoryOutcome cfg (envOf c) now = .ok run.products := by
      rw [← scrapeCategory_outcome cfg (envOf c) now acc.store, hsc]
      rfl
    by_cases he : run.products.isEmpty
    · simp [hsc, he, exportedCategory, ho]
    · simp [hsc, he, exportedCategory, ho]
  | error e =>
    have ho : categoryOutcome cfg (envOf c) now = .error e := by
      rw [← scrapeCategory_outcome cfg (envOf c) now acc.store, hsc]
      rfl
    simp [hsc, exportedCategory, ho]

/-- Helper: the records and store an orchestrator step produces do not
depend on the export sink or on the accumulated export history. -/
theorem categoryStep_export_indep (cfg : ScrapeConfig) (envOf : String → CategoryEnv)
    (f g : Store → Except String Unit) (now : Nat)
    (acc1 acc2 : AllResult) (c : String)
    (hp : acc1.products = acc2.products) (hs : acc1.store = acc2.store) :
    (categoryStep cfg envOf f now acc1 c).products
        = (categoryStep cfg envOf g now acc2 c).products
    ∧ (categoryStep cfg envOf f now acc1 c).store
        = (categoryStep cfg envOf g now acc2 c).store := by
  unfold categoryStep
  rw [hs]
  cases hsc : (scrapeCategory cfg (envOf c) now acc2.store).1 with
  | ok run =>
    by_cases he : run.products.isEmpty
    · simp [hsc, he, hp]
    · simp [hsc, he, hp]
  | error e => simp [hsc, hp]

/-- Helper: the records and final store of the orchestrator fold are
independent of the export sink. -/
theorem scrapeAll_export_indep_aux (cfg : ScrapeConfig) (envOf : String → CategoryEnv)
    (f g : Store → Except String Unit) (now : Nat) :
    ∀ (cats : List String) (acc1 acc2 : AllResult),
      acc1.products = acc2.products → acc1.store = acc2.store →
      (List.foldl (categoryStep cfg envOf f now) acc1 cats).products
          = (List.foldl (categoryStep cfg envOf g now) acc2 cats).products
      ∧ (List.foldl (categoryStep cfg envOf f now) acc1 cats).store
          = (List.foldl (categoryStep cfg envOf g now) acc2 cats).store := by
  intro cats
  induction cats with
  | nil => intro acc1 acc2 h1 h2; exact ⟨h1, h2⟩
  | cons c cs ih =>
    intro acc1 acc2 h1 h2
    rw [List.foldl_cons, List.foldl_cons]
    have hstep := categoryStep_export_indep cfg envOf f g now acc1 acc2 c h1 h2
    exact ih _ _ hstep.1 hstep.2

/-- Helper: the categories with an export attempt are exactly those
whose walk succeeds with at least one record, in traversal order. -/
theorem scrapeAll_exports_fst_aux (cfg : ScrapeConfig) (envOf : String → CategoryEnv)
    (exportFn : Store → Except String Unit) (now : Nat) :
    ∀ (cats : List String) (acc : AllResult),
      (List.foldl (categoryStep cfg envOf exportFn now) acc cats).exports.map Prod.fst
        = acc.exports.map Prod.fst ++ cats.filter (exportedCategory cfg envOf now) := by
  intro cats
  induction cats with
  | nil => intro acc; simp
  | cons c cs ih =>
    intro acc
    rw [List.foldl_cons, ih (categoryStep cfg envOf exportFn now acc c),
      categoryStep_exports_fst]
    rw [List.filter_cons]
    by_cases hp : exportedCategory cfg envOf now c
    · simp [hp]
    · simp [hp]

/-- C9 (amended).  Export after categories with records: the traversal
(records, final store, and which categories get an export attempt) is
unchanged under any export sink, including one that always fails, so an
export failure never aborts the remaining categories; and the export sink
is invoked after exactly the categories whose walk succeeds with at least
one record - zero-product categories trigger no export. -/
theorem export_after_each_category :
    (∀ (cfg : ScrapeConfig) (envOf : String → CategoryEnv)
       (f g : Store → Except String Unit) (now : Nat)
       (cats : List String) (store : Store),
       (scrapeAllCategories cfg envOf f now cats store).products
           = (scrapeAllCategories cfg envOf g now cats store).products
       ∧ (scrapeAllCategories cfg envOf f now cats store).store
           = (scrapeAllCategories cfg envOf g now cats store).store
       ∧ (scrapeAllCategories cfg envOf f now cats store).exports.map Prod.fst
           = (scrapeAllCategories cfg envOf g now cats store).exports.map Prod.fst)
    ∧ (∀ (cfg : ScrapeConfig) (envOf : String → CategoryEnv)
       (exportFn : Store → Except String Unit) (now : Nat)
       (cats : List String) (store : Store),
       (scrapeAllCategories cfg envOf exportFn now cats store).exports.map Prod.fst
         = cats.filter (exportedCategory cfg envOf now)) := by
  constructor
  · intro cfg envOf f g now cats store
    have haux := scrapeAll_export_indep_aux cfg envOf f g now cats
      ⟨[], [], store⟩ ⟨[], [], store⟩ rfl rfl
    have hf := scrapeAll_exports_fst_aux cfg envOf f now cats ⟨[], [], store⟩
    have hg := scrapeAll_exports_fst_aux cfg envOf g now cats ⟨[], [], store⟩
    refine ⟨haux.1, haux.2, ?_⟩
    show (List.foldl (categoryStep cfg envOf f now) ⟨[], [], store⟩ cats).exports.map Prod.fst
      = (List.foldl (categoryStep cfg envOf g now) ⟨[], [], store⟩ cats).exports.map Prod.fst
    rw [hf, hg]
  · intro cfg envOf exportFn now cats store
    have h := scrapeAll_exports_fst_aux cfg envOf exportFn now cats ⟨[], [], store⟩
    simpa [scrapeAllCategories] using h

/-- Counterexample to C9 as stated: a category that completes with zero
products receives no export attempt. -/
theorem export_zero_products_counterexample :
    categoryOutcome ⟨2, 500, "/product/"⟩ zeroProductsEnv 0 = .ok []
    ∧ (scrapeAllCategories ⟨2, 500, "/product/"⟩ (fun _ => zeroProductsEnv)
        (fun _ => .ok ()) 0 ["A"] []).exports = [] := by
  decide

end Sysco
